import Mathlib

/-
Verification of the Triton TensorFlow backend (tensorflow.cc,
tensorflow_utils.cc) against its natural-language specification.

The definitions below are a shallow embedding of the C++ sources:
  - TRITONTF shapes are lists of Int (int64_t dims; rank_ = dims.length),
  - machine bytes are Nat values below 256,
  - fallible functions return Option TRITONSERVER_Error (none = success,
    mirroring the nullptr-on-success convention of the source),
  - error messages are built like the source builds them, except that
    quoting punctuation around names is elided.
-/

namespace TritonTFBackend

/-- Model-configuration wildcard dimension (-1), WILDCARD_DIM in the source. -/
def WILDCARD_DIM : Int := -1

/-- TRITONTF_DataType (tensorflow_backend_tf.h enum, as used by
tensorflow_utils.cc). -/
inductive TRITONTF_DataType where
  | invalid | bool | uint8 | uint16 | uint32 | uint64
  | int8 | int16 | int32 | int64 | fp16 | fp32 | fp64 | string
deriving DecidableEq

/-- TRITONSERVER_DataType (tritonserver.h enum values named in
tensorflow_utils.cc; bf16 stands for the server datatypes that fall into the
default branch of the TRITONSERVER-to-TRITONTF switch). -/
inductive TRITONSERVER_DataType where
  | invalid | bool | uint8 | uint16 | uint32 | uint64
  | int8 | int16 | int32 | int64 | fp16 | fp32 | fp64 | bytes | bf16
deriving DecidableEq

/-- TRITONSERVER_Error values: the error code together with the message the
source builds. invalidArg is TRITONSERVER_ERROR_INVALID_ARG, internal is
TRITONSERVER_ERROR_INTERNAL. -/
inductive TRITONSERVER_Error where
  | invalidArg (msg : String)
  | internal (msg : String)
deriving DecidableEq

/-- ConvertDataType(TRITONTF_DataType) from tensorflow_utils.cc: TRITONTF to
TRITONSERVER datatype. -/
def ConvertDataType : TRITONTF_DataType → TRITONSERVER_DataType
  | .invalid => .invalid
  | .bool => .bool
  | .uint8 => .uint8
  | .uint16 => .uint16
  | .uint32 => .uint32
  | .uint64 => .uint64
  | .int8 => .int8
  | .int16 => .int16
  | .int32 => .int32
  | .int64 => .int64
  | .fp16 => .fp16
  | .fp32 => .fp32
  | .fp64 => .fp64
  | .string => .bytes

/-- ConvertDataType(const std::string&) from tensorflow_utils.cc: model
configuration type name to TRITONTF datatype; unmapped names give invalid. -/
def ConvertDataTypeFromConfig (dtype : String) : TRITONTF_DataType :=
  if dtype = "TYPE_INVALID" then .invalid
  else if dtype = "TYPE_BOOL" then .bool
  else if dtype = "TYPE_UINT8" then .uint8
  else if dtype = "TYPE_UINT16" then .uint16
  else if dtype = "TYPE_UINT32" then .uint32
  else if dtype = "TYPE_UINT64" then .uint64
  else if dtype = "TYPE_INT8" then .int8
  else if dtype = "TYPE_INT16" then .int16
  else if dtype = "TYPE_INT32" then .int32
  else if dtype = "TYPE_INT64" then .int64
  else if dtype = "TYPE_FP16" then .fp16
  else if dtype = "TYPE_FP32" then .fp32
  else if dtype = "TYPE_FP64" then .fp64
  else if dtype = "TYPE_STRING" then .string
  else .invalid

/-- ConvertToModelConfigString from tensorflow_utils.cc: TRITONTF datatype to
model configuration type name. -/
def ConvertToModelConfigString : TRITONTF_DataType → String
  | .invalid => "TYPE_INVALID"
  | .bool => "TYPE_BOOL"
  | .uint8 => "TYPE_UINT8"
  | .uint16 => "TYPE_UINT16"
  | .uint32 => "TYPE_UINT32"
  | .uint64 => "TYPE_UINT64"
  | .int8 => "TYPE_INT8"
  | .int16 => "TYPE_INT16"
  | .int32 => "TYPE_INT32"
  | .int64 => "TYPE_INT64"
  | .fp16 => "TYPE_FP16"
  | .fp32 => "TYPE_FP32"
  | .fp64 => "TYPE_FP64"
  | .string => "TYPE_STRING"

/-- ConvertDataType(TRITONSERVER_DataType) from tensorflow_utils.cc:
TRITONSERVER datatype back to TRITONTF; the default branch (bf16 here) gives
invalid. -/
def ConvertDataTypeFromServer : TRITONSERVER_DataType → TRITONTF_DataType
  | .invalid => .invalid
  | .bool => .bool
  | .uint8 => .uint8
  | .uint16 => .uint16
  | .uint32 => .uint32
  | .uint64 => .uint64
  | .int8 => .int8
  | .int16 => .int16
  | .int32 => .int32
  | .int64 => .int64
  | .fp16 => .fp16
  | .fp32 => .fp32
  | .fp64 => .fp64
  | .bytes => .string
  | .bf16 => .invalid

/-- The fourteen model-configuration type names recognized by
ConvertDataTypeFromConfig (all names with a non-default branch). -/
def supportedConfigTypeNames : List String :=
  ["TYPE_INVALID", "TYPE_BOOL", "TYPE_UINT8", "TYPE_UINT16", "TYPE_UINT32",
   "TYPE_UINT64", "TYPE_INT8", "TYPE_INT16", "TYPE_INT32", "TYPE_INT64",
   "TYPE_FP16", "TYPE_FP32", "TYPE_FP64", "TYPE_STRING"]

/-- TRITONTF_Shape: dims_ array with rank_ = dims.length. -/
structure TRITONTF_Shape where
  dims : List Int
deriving DecidableEq

/-- The rank_ field of a TRITONTF_Shape. -/
def TRITONTF_Shape.rank (s : TRITONTF_Shape) : Nat := s.dims.length

/-- TRITONTF_IO of the source (name_, inmodel_name_, data_type_, shape_). -/
structure TRITONTF_IODesc where
  name : String
  inmodel_name : String
  data_type : TRITONTF_DataType
  shape : TRITONTF_Shape
deriving DecidableEq

/-- ModelSupportsBatch from tensorflow_utils.cc. The loop returns false as
soon as it meets a tensor with rank_ different from 0 whose dims_[0] is not
-1; a rank-0 tensor does not trigger the early return. Each element of
model_ios is one TRITONTF_IOList chain. -/
def ModelSupportsBatch (model_ios : List (List TRITONTF_IODesc)) : Bool :=
  model_ios.all fun ios =>
    ios.all fun io =>
      match io.shape.dims with
      | [] => true
      | d0 :: _ => d0 == WILDCARD_DIM

/-- The inline batching-support scan of AutoCompleteHelper::FixBatchingSupport
(tensorflow.cc lines 1200-1208): sig_supports_batch is cleared for a tensor
with rank_ equal to 0 OR dims_[0] different from -1. -/
def sigSupportsBatch (model_ios : List (List TRITONTF_IODesc)) : Bool :=
  model_ios.all fun ios =>
    ios.all fun io =>
      match io.shape.dims with
      | [] => false
      | d0 :: _ => d0 == WILDCARD_DIM

/-- ShapeToString from tensorflow_utils.cc (start_idx = 0). -/
def ShapeToString (shape : TRITONTF_Shape) : String :=
  "[" ++ String.intercalate "," (shape.dims.map toString) ++ "]"

/-- ShapeToString on a configured dims vector (backend::ShapeToString). -/
def DimsToString (dims : List Int) : String :=
  "[" ++ String.intercalate "," (dims.map toString) ++ "]"

/-- The per-dimension comparison loop of CompareDims: succ stays true for a
pair whose model dim is WILDCARD under lenient comparison, and otherwise
requires equality. -/
def dimsLoopMatch (compare_exact : Bool) (pairs : List (Int × Int)) : Bool :=
  pairs.all fun p =>
    if compare_exact || !(p.1 == WILDCARD_DIM) then p.1 == p.2 else true

/-- CompareDims from tensorflow_utils.cc. With supports_batching the model
shape must have rank at least 1 with first dimension -1, and the model dims
are compared against WILDCARARD-prepended configured dims; without it the
ranks must match and the dims are compared directly. The loop body only runs
when the ranks agree, so comparing over zip is exact. -/
def CompareDims (model_name tensor_name : String) (model_shape : TRITONTF_Shape)
    (dims : List Int) (supports_batching compare_exact : Bool) :
    Option TRITONSERVER_Error :=
  if supports_batching then
    if model_shape.rank = 0 ∨ model_shape.dims.headD 0 ≠ WILDCARD_DIM then
      some (.invalidArg
        ("model " ++ model_name ++ ", tensor " ++ tensor_name ++
         ": for the model to support batching the shape should have at " ++
         "least 1 dimension and the first dimension must be -1; but shape " ++
         "expected by the model is " ++ ShapeToString model_shape))
    else
      if model_shape.rank = (WILDCARD_DIM :: dims).length ∧
          dimsLoopMatch compare_exact
            (model_shape.dims.zip (WILDCARD_DIM :: dims)) = true then
        none
      else
        some (.invalidArg
          ("model " ++ model_name ++ ", tensor " ++ tensor_name ++
           ": the model expects " ++ toString model_shape.rank ++
           " dimensions (shape " ++ ShapeToString model_shape ++
           ") but the model configuration specifies " ++
           toString (WILDCARD_DIM :: dims).length ++
           " dimensions (an initial batch dimension because max_batch_size " ++
           "> 0 followed by the explicit tensor shape, making complete " ++
           "shape " ++ DimsToString (WILDCARD_DIM :: dims) ++ ")"))
  else
    if model_shape.rank = dims.length ∧
        dimsLoopMatch compare_exact (model_shape.dims.zip dims) = true then
      none
    else
      some (.invalidArg
        ("model " ++ model_name ++ ", tensor " ++ tensor_name ++
         ": the model expects " ++ toString model_shape.rank ++
         " dimensions (shape " ++ ShapeToString model_shape ++
         ") but the model configuration specifies " ++ toString dims.length ++
         " dimensions (shape " ++ DimsToString dims ++ ")"))

/-
String tensor marshalling (tensorflow.cc). Buffers are lists of machine
bytes (Nat values below 256). The string tensor itself is a list of byte
strings, one per element slot; TRITONTF_TensorSetString writes one slot.
-/

/-- Little-endian read of a 4-byte length header, as done by the
reinterpret-cast of the content pointer to uint32 in SetStringInputTensor. -/
def readLE32 (b0 b1 b2 b3 : Nat) : Nat :=
  b0 + 256 * b1 + 65536 * b2 + 16777216 * b3

/-- Little-endian low 4 bytes of a size_t length, as appended by
SetStringOutputBuffer (append of the address of len with size 4 on a
little-endian machine). -/
def toLE32 (n : Nat) : List Nat :=
  [n % 256, n / 256 % 256, n / 65536 % 256, n / 16777216 % 256]

/-- Response-pointer state for one request: ok models a live (non-null)
TRITONBACKEND_Response pointer, failed msg models a response that was sent
with the error and then set to nullptr (RESPOND_AND_SET_NULL_IF_ERROR). -/
inductive RespState where
  | ok
  | failed (msg : String)
deriving DecidableEq

/-- RESPOND_AND_SET_NULL_IF_ERROR: only a live response is sent and nulled;
an already-nulled response keeps its first error. -/
def respondAndSetNull (r : RespState) (msg : String) : RespState :=
  match r with
  | .ok => .failed msg
  | .failed m => .failed m

/-- TRITONTF_TensorSetString on the string-tensor model: write one slot. -/
def TRITONTF_TensorSetString (tensor : List (List Nat)) (idx : Nat)
    (s : List Nat) : List (List Nat) :=
  tensor.set idx s

/-- FillStringTensor from tensorflow.cc: set cnt slots starting at idx to the
empty string. -/
def FillStringTensor (tensor : List (List Nat)) (idx cnt : Nat) :
    List (List Nat) :=
  match cnt with
  | 0 => tensor
  | c + 1 => FillStringTensor (TRITONTF_TensorSetString tensor idx []) (idx + 1) c

/-- Message of the unexpected-number-of-elements error in
SetStringInputTensor. -/
def unexpectedCountMsg (name : String) (element_idx request_element_cnt : Nat) :
    String :=
  "unexpected number of string elements " ++ toString (element_idx + 1) ++
  " for inference input " ++ name ++ ", expecting " ++
  toString request_element_cnt

/-- Message of the incomplete-string-data error in SetStringInputTensor. -/
def incompleteMsg (name : String) (len avail : Nat) : String :=
  "incomplete string data for inference input " ++ name ++
  ", expecting string of length " ++ toString len ++ " but only " ++
  toString avail ++ " bytes available"

/-- Message of the final element-count check in SetStringInputTensor. -/
def finalCountMsg (name : String) (request_element_cnt element_idx : Nat) :
    String :=
  "expected " ++ toString request_element_cnt ++
  " strings for inference input " ++ name ++ ", got " ++ toString element_idx

/-- The parsing loop of SetStringInputTensor: while at least 4 content bytes
remain, read a 4-byte length; finding more elements than declared or a length
promising more bytes than remain is a per-request error that fills the rest
of the span [tensor_offset + element_idx, tensor_offset + request_element_cnt)
with empty strings; when fewer than 4 bytes remain the loop ends and, if the
response is still live and the element count is short, the same error-and-fill
treatment applies. -/
def setStringInputLoop (tensor : List (List Nat)) (content : List Nat)
    (name : String) (request_element_cnt tensor_offset element_idx : Nat)
    (response : RespState) : List (List Nat) × RespState :=
  match content with
  | b0 :: b1 :: b2 :: b3 :: rest =>
    if request_element_cnt ≤ element_idx then
      (FillStringTensor tensor (tensor_offset + element_idx)
        (request_element_cnt - element_idx),
       respondAndSetNull response
        (unexpectedCountMsg name element_idx request_element_cnt))
    else
      if rest.length < readLE32 b0 b1 b2 b3 then
        (FillStringTensor tensor (tensor_offset + element_idx)
          (request_element_cnt - element_idx),
         respondAndSetNull response
          (incompleteMsg name (readLE32 b0 b1 b2 b3) rest.length))
      else
        setStringInputLoop
          (TRITONTF_TensorSetString tensor (tensor_offset + element_idx)
            (rest.take (readLE32 b0 b1 b2 b3)))
          (rest.drop (readLE32 b0 b1 b2 b3)) name request_element_cnt
          tensor_offset (element_idx + 1) response
  | _ =>
    if response = .ok ∧ element_idx ≠ request_element_cnt then
      (FillStringTensor tensor (tensor_offset + element_idx)
        (request_element_cnt - element_idx),
       respondAndSetNull response
        (finalCountMsg name request_element_cnt element_idx))
    else (tensor, response)
termination_by content.length
decreasing_by
  simp only [List.length_drop, List.length_cons]
  omega

/-- SetStringInputTensor from tensorflow.cc, with the request content already
made contiguous (GetContiguousInputContent is the external buffer gatherer and
is assumed to succeed; content is the request byte payload for this input). -/
def SetStringInputTensor (tensor : List (List Nat)) (content : List Nat)
    (name : String) (request_element_cnt tensor_offset : Nat)
    (response : RespState) : List (List Nat) × RespState :=
  setStringInputLoop tensor content name request_element_cnt tensor_offset 0
    response

/-- Span of the batched string tensor written for one request with the given
content, relative to the remaining element budget k: decoded elements followed
by empty strings filling the rest of the span on error. Derived from the same
recursion as setStringInputLoop. -/
def stringSpan (content : List Nat) (k : Nat) : List (List Nat) :=
  match content with
  | b0 :: b1 :: b2 :: b3 :: rest =>
    if k = 0 then []
    else
      if rest.length < readLE32 b0 b1 b2 b3 then List.replicate k []
      else
        rest.take (readLE32 b0 b1 b2 b3) ::
          stringSpan (rest.drop (readLE32 b0 b1 b2 b3)) (k - 1)
  | _ => List.replicate k []
termination_by content.length
decreasing_by
  simp only [List.length_drop, List.length_cons]
  omega

/-- Response outcome of the SetStringInputTensor loop entered with a live
response, tracking the same element counter as the loop. -/
def setStringResultAux (content : List Nat) (name : String)
    (request_element_cnt element_idx : Nat) : RespState :=
  match content with
  | b0 :: b1 :: b2 :: b3 :: rest =>
    if request_element_cnt ≤ element_idx then
      .failed (unexpectedCountMsg name element_idx request_element_cnt)
    else
      if rest.length < readLE32 b0 b1 b2 b3 then
        .failed (incompleteMsg name (readLE32 b0 b1 b2 b3) rest.length)
      else
        setStringResultAux (rest.drop (readLE32 b0 b1 b2 b3)) name
          request_element_cnt (element_idx + 1)
  | _ =>
    if element_idx ≠ request_element_cnt then
      .failed (finalCountMsg name request_element_cnt element_idx)
    else .ok
termination_by content.length
decreasing_by
  simp only [List.length_drop, List.length_cons]
  omega

/-- Whether a request byte payload is a well-formed encoding of exactly k
string elements as read by the SetStringInputTensor loop (up to 3 trailing
bytes are ignored by the loop, as in the source). -/
def wellFormedStringPayload (content : List Nat) (k : Nat) : Bool :=
  match content with
  | b0 :: b1 :: b2 :: b3 :: rest =>
    if k = 0 then false
    else
      if rest.length < readLE32 b0 b1 b2 b3 then false
      else wellFormedStringPayload (rest.drop (readLE32 b0 b1 b2 b3)) (k - 1)
  | _ => k == 0
termination_by content.length
decreasing_by
  simp only [List.length_drop, List.length_cons]
  omega

/-- Serialization loop of SetStringOutputBuffer from tensorflow.cc: each of
tensor_element_count elements starting at tensor_offset is appended as the
4-byte little-endian length followed by the raw bytes (nothing is appended
for a zero-length string, which coincides with appending the empty list). -/
def SetStringOutputBuffer (tensor : List (List Nat))
    (tensor_element_count tensor_offset : Nat) : List Nat :=
  ((List.range tensor_element_count).map fun e =>
    toLE32 (tensor.getD (tensor_offset + e) []).length ++
      tensor.getD (tensor_offset + e) []).flatten

/-- The string-input branch of ModelInstanceState::ProcessRequests: for each
request in order, run SetStringInputTensor on that request's payload with its
own response pointer, then advance the tensor offset by the request's declared
element count. -/
def processStringRequests (tensor : List (List Nat)) (name : String)
    (reqs : List (List Nat × Nat)) (resps : List RespState)
    (tensor_offset : Nat) : List (List Nat) × List RespState :=
  match reqs, resps with
  | [], _ => (tensor, [])
  | _, [] => (tensor, [])
  | (content, cnt) :: rs, resp :: rest =>
    ((processStringRequests
        (SetStringInputTensor tensor content name cnt tensor_offset resp).1
        name rs rest (tensor_offset + cnt)).1,
     (SetStringInputTensor tensor content name cnt tensor_offset resp).2 ::
      (processStringRequests
        (SetStringInputTensor tensor content name cnt tensor_offset resp).1
        name rs rest (tensor_offset + cnt)).2)

/-- Overwrite the slots [i, i + sp.length) of t with sp. -/
def splice (t : List (List Nat)) (i : Nat) (sp : List (List Nat)) :
    List (List Nat) :=
  t.take i ++ sp ++ t.drop (i + sp.length)

/-
ModelInstanceState::ProcessRequests (tensorflow.cc): batch-size phase and
response-send accounting.
-/

/-- A pending inference request as seen by the batch-size loop: the shapes of
its input tensors in index order (TRITONBACKEND_RequestInputByIndex 0 reads
the first one; request-time dims are concrete and non-negative). -/
structure BackendRequest where
  inputs : List (List Nat)
deriving DecidableEq

/-- Outcome of the batch-size phase of ProcessRequests: abortAll err means
RequestsRespondWithError sends the one error err to every pending request and
the cycle returns before any execution; emptyReturn is the total_batch_size
== 0 early return where nothing at all is sent; proceed commits to running
inference. -/
inductive BatchSizeOutcome where
  | abortAll (err : TRITONSERVER_Error)
  | emptyReturn
  | proceed (total_batch_size : Nat)
deriving DecidableEq

/-- The request loop of ProcessRequests computing total_batch_size: a null
request aborts the whole cycle; with max_batch_size > 0 each request
contributes the leading dimension of its first input (a request without a
first input makes TRITONBACKEND_RequestInputByIndex fail, aborting the
cycle; the error message of that external call is modelled opaquely), and
with batching disabled each request contributes 1. -/
def collectTotalBatchSize (name : String)
    (requests : List (Option BackendRequest)) (max_batch_size : Nat)
    (acc : Nat) : Except TRITONSERVER_Error Nat :=
  match requests with
  | [] => .ok acc
  | none :: _ =>
    .error (.internal ("null request given to TensorFlow backend for " ++ name))
  | some r :: rest =>
    if 0 < max_batch_size then
      match r.inputs.head? with
      | none => .error (.internal "TRITONBACKEND_RequestInputByIndex failed")
      | some shape =>
        collectTotalBatchSize name rest max_batch_size (acc + shape.headD 0)
    else collectTotalBatchSize name rest max_batch_size (acc + 1)

/-- Message of the max-batch-size-exceeded internal error in
ProcessRequests. -/
def batchTooLargeMsg (total_batch_size : Nat) (name : String)
    (max_batch_size : Nat) : String :=
  "batch size " ++ toString total_batch_size ++ " for " ++ name ++
  ", max allowed is " ++ toString max_batch_size

/-- Batch-size phase of ModelInstanceState::ProcessRequests (lines
1682-1741): compute total_batch_size, return silently when it is 0, abort all
requests with one internal error when it differs from 1 and exceeds
max_batch_size, and otherwise commit to running inference. MaxBatchSize() is
an int guaranteed non-negative by configuration validation; the source casts
it to size_t for the comparison, modelled here as Nat. -/
def ProcessRequestsBatchPhase (name : String)
    (requests : List (Option BackendRequest)) (max_batch_size : Nat) :
    BatchSizeOutcome :=
  match collectTotalBatchSize name requests max_batch_size 0 with
  | .error e => .abortAll e
  | .ok total_batch_size =>
    if total_batch_size = 0 then .emptyReturn
    else if total_batch_size ≠ 1 ∧ max_batch_size < total_batch_size then
      .abortAll (.internal (batchTooLargeMsg total_batch_size name
        max_batch_size))
    else .proceed total_batch_size

/-- Per-request response-pointer state for the send accounting: live mirrors
the responses[i] pointer being non-null, sent counts how many times
TRITONBACKEND_ResponseSend ran for this request. -/
structure RState where
  live : Bool
  sent : Nat
deriving DecidableEq

/-- RESPOND_AND_SET_NULL_IF_ERROR as a send event: a live response is sent
once and nulled, a null response is skipped. -/
def respondAndSetNullSend (s : RState) : RState :=
  if s.live then ⟨false, s.sent + 1⟩ else s

/-- A send that does not null the pointer (the error broadcast after a tensor
allocation or TRITONTF_ModelRun failure, and the final send loop); in the
source these sends are immediately followed by the end of the cycle. -/
def sendIfLive (s : RState) : RState :=
  if s.live then ⟨s.live, s.sent + 1⟩ else s

/-- Sends observed by one request across a committed cycle: the response is
created (live iff TRITONBACKEND_ResponseNew succeeded; on failure the request
keeps a null response and is only logged), the per-request input-gathering
error events fire in order, then either the cycle aborts (tensor allocation
or run failure: every live response gets the error) or the per-request
output-distribution error events fire and the final loop sends every response
still live. -/
def requestCycleSends (responseNewOk : Bool) (inputErrs : List Bool)
    (abortMid : Bool) (outputErrs : List Bool) : Nat :=
  if abortMid then
    (sendIfLive (inputErrs.foldl
      (fun s e => if e then respondAndSetNullSend s else s)
      ⟨responseNewOk, 0⟩)).sent
  else
    (sendIfLive (outputErrs.foldl
      (fun s e => if e then respondAndSetNullSend s else s)
      (inputErrs.foldl (fun s e => if e then respondAndSetNullSend s else s)
        ⟨responseNewOk, 0⟩))).sent

/-- One execution cycle of ProcessRequests with the outcomes of the external
calls given as oracles: the pending requests and max batch size drive the
batch-size phase concretely; responseNewOk, the per-request error events and
the mid-cycle abort flag abstract the data-dependent error sites of the
committed part of the cycle. -/
structure CycleOracle where
  requests : List (Option BackendRequest)
  max_batch_size : Nat
  model_name : String
  responseNewOk : List Bool
  inputErrs : List (List Bool)
  abortMid : Bool
  outputErrs : List (List Bool)

/-- Number of response sends each request observes in one run of
ModelInstanceState::ProcessRequests: an aborted batch-size phase sends the
one error to every request (RequestsRespondWithError), the total == 0 early
return sends nothing, and a committed cycle follows requestCycleSends per
request. -/
def ProcessRequestsSends (o : CycleOracle) : List Nat :=
  match ProcessRequestsBatchPhase o.model_name o.requests o.max_batch_size with
  | .abortAll _ => List.replicate o.requests.length 1
  | .emptyReturn => List.replicate o.requests.length 0
  | .proceed _ =>
    (List.range o.requests.length).map fun i =>
      requestCycleSends (o.responseNewOk.getD i true) (o.inputErrs.getD i [])
        o.abortMid (o.outputErrs.getD i [])

/-
Signature validation (tensorflow.cc, graphdef and savedmodel namespaces).
-/

/-- Expected-input count of savedmodel::ValidateTRITONTFModel: configured
inputs plus batch_input entries plus one for each sequence control that
resolves to a tensor name. -/
def savedmodelExpectedInputCnt (config_input_cnt batch_input_cnt : Nat)
    (have_start have_end have_ready have_corrid : Bool) : Nat :=
  config_input_cnt + batch_input_cnt +
    (if have_start then 1 else 0) + (if have_end then 1 else 0) +
    (if have_ready then 1 else 0) + (if have_corrid then 1 else 0)

/-- Input-count check of savedmodel::ValidateTRITONTFModel (lines 318-328):
the size of the set of model input names must equal the expected count
exactly. -/
def savedmodelCheckInputCount (model_name : String)
    (model_input_names : List String) (expected_input_cnt : Nat) :
    Option TRITONSERVER_Error :=
  if model_input_names.dedup.length ≠ expected_input_cnt then
    some (.invalidArg
      ("unable to load model " ++ model_name ++ ", configuration expects " ++
       toString expected_input_cnt ++ " inputs, model provides " ++
       toString model_input_names.dedup.length))
  else none

/-- Input-count check of graphdef::ValidateTRITONTFModel (lines 131-143): the
model only needs to provide at least as many potential inputs as the
configuration declares. -/
def graphdefCheckInputCount (model_name : String)
    (potential_input_names : List String) (config_input_cnt : Nat) :
    Option TRITONSERVER_Error :=
  if potential_input_names.dedup.length < config_input_cnt then
    some (.invalidArg
      ("unable to load model " ++ model_name ++ ", configuration expects " ++
       toString config_input_cnt ++ " inputs, model provides at most " ++
       toString potential_input_names.dedup.length))
  else none

/-- Back-fill of a rank-0 model-reported shape from the configured dims in
savedmodel::ValidateTRITONTFModel (lines 376-387 for inputs, 435-446 for
outputs): rank_ is set to dims.size() + 1 when batching is supported (else
dims.size()), the dims_ array is malloc-ed, and the loop writes dims[i] into
slot i + 1 (batching) or slot i. With batching the leading slot is never
written; uninit_dim stands for the indeterminate contents malloc left
there. -/
def backfillShape (config_dims : List Int) (supports_batching : Bool)
    (uninit_dim : Int) : TRITONTF_Shape :=
  if supports_batching then ⟨uninit_dim :: config_dims⟩ else ⟨config_dims⟩

/-
Helper lemmas.
-/

/-- Elementwise reading of the ModelSupportsBatch loop condition. -/
lemma io_msb_cond_iff (io : TRITONTF_IODesc) :
    (match io.shape.dims with
     | [] => true
     | d0 :: _ => d0 == WILDCARD_DIM) = true ↔
    io.shape.rank = 0 ∨ io.shape.dims.head? = some WILDCARD_DIM := by
  rcases hd : io.shape.dims with _ | ⟨d0, tl⟩ <;>
    simp [TRITONTF_Shape.rank, hd]

/-- Elementwise reading of the FixBatchingSupport loop condition. -/
lemma io_sig_cond_iff (io : TRITONTF_IODesc) :
    (match io.shape.dims with
     | [] => false
     | d0 :: _ => d0 == WILDCARD_DIM) = true ↔
    io.shape.rank ≠ 0 ∧ io.shape.dims.head? = some WILDCARD_DIM := by
  rcases hd : io.shape.dims with _ | ⟨d0, tl⟩ <;>
    simp [TRITONTF_Shape.rank, hd]

/-- Characterization of ModelSupportsBatch: the scan ignores rank-0 tensors
and requires a WILDCARD leading dimension only of tensors with rank at
least 1. -/
lemma modelSupportsBatch_iff (model_ios : List (List TRITONTF_IODesc)) :
    ModelSupportsBatch model_ios = true ↔
    ∀ ios ∈ model_ios, ∀ io ∈ ios,
      io.shape.rank = 0 ∨ io.shape.dims.head? = some WILDCARD_DIM := by
  unfold ModelSupportsBatch
  simp only [List.all_eq_true]
  constructor <;> intro h ios hios io hio
  · exact (io_msb_cond_iff io).mp (h ios hios io hio)
  · exact (io_msb_cond_iff io).mpr (h ios hios io hio)

/-- Characterization of the FixBatchingSupport scan: every tensor must have
rank at least 1 with a WILDCARD leading dimension; a rank-0 tensor clears the
flag. -/
lemma sigSupportsBatch_iff (model_ios : List (List TRITONTF_IODesc)) :
    sigSupportsBatch model_ios = true ↔
    ∀ ios ∈ model_ios, ∀ io ∈ ios,
      io.shape.rank ≠ 0 ∧ io.shape.dims.head? = some WILDCARD_DIM := by
  unfold sigSupportsBatch
  simp only [List.all_eq_true]
  constructor <;> intro h ios hios io hio
  · exact (io_sig_cond_iff io).mp (h ios hios io hio)
  · exact (io_sig_cond_iff io).mpr (h ios hios io hio)

/-- Elementwise reading of the CompareDims comparison loop. -/
lemma dimsLoopMatch_iff (ce : Bool) (l : List (Int × Int)) :
    dimsLoopMatch ce l = true ↔
    ∀ p ∈ l, (ce = true → p.1 = p.2) ∧
      (ce = false → p.1 = WILDCARD_DIM ∨ p.1 = p.2) := by
  unfold dimsLoopMatch
  simp only [List.all_eq_true]
  constructor <;> intro h p hp <;> have hb := h p hp
  · cases ce
    · by_cases hw : p.1 = WILDCARD_DIM
      · exact ⟨nofun, fun _ => Or.inl hw⟩
      · refine ⟨nofun, fun _ => Or.inr ?_⟩
        simpa [hw] using hb
    · exact ⟨fun _ => (by simpa using hb), nofun⟩
  · cases ce
    · by_cases hw : p.1 = WILDCARD_DIM
      · simp [hw]
      · rcases hb.2 rfl with h1 | h1
        · exact absurd h1 hw
        · simp [hw, h1]
    · simpa using hb.1 rfl

/-
Claim theorems.
-/

/-- C5: CompareDims with supports_batching succeeds exactly when the model
shape has rank at least 1 with a WILDCARD first dimension and, after
prepending WILDCARD to the configured dims, the ranks agree and every
dimension matches (exact equality when compare_exact, and otherwise a model
WILDCARD dimension accepts any configured value while a fixed model dimension
must equal the configured one); without supports_batching the same
per-dimension rule applies with the ranks required to match; every failure is
a descriptive invalid-argument error and success is nullptr (none). -/
theorem compareDims_spec (model_name tensor_name : String)
    (model_shape : TRITONTF_Shape) (dims : List Int) (sb ce : Bool) :
    (CompareDims model_name tensor_name model_shape dims sb ce = none ↔
      (if sb then
        1 ≤ model_shape.rank ∧
        model_shape.dims.head? = some WILDCARD_DIM ∧
        model_shape.rank = dims.length + 1 ∧
        ∀ p ∈ model_shape.dims.zip (WILDCARD_DIM :: dims),
          (ce = true → p.1 = p.2) ∧
          (ce = false → p.1 = WILDCARD_DIM ∨ p.1 = p.2)
      else
        model_shape.rank = dims.length ∧
        ∀ p ∈ model_shape.dims.zip dims,
          (ce = true → p.1 = p.2) ∧
          (ce = false → p.1 = WILDCARD_DIM ∨ p.1 = p.2))) ∧
    (CompareDims model_name tensor_name model_shape dims sb ce = none ∨
      ∃ msg, CompareDims model_name tensor_name model_shape dims sb ce =
        some (.invalidArg msg)) := by
  obtain ⟨mdims⟩ := model_shape
  have hdisj : CompareDims model_name tensor_name ⟨mdims⟩ dims sb ce = none ∨
      ∃ msg, CompareDims model_name tensor_name ⟨mdims⟩ dims sb ce =
        some (.invalidArg msg) := by
    unfold CompareDims
    split_ifs <;> first
      | exact Or.inl rfl
      | exact Or.inr ⟨_, rfl⟩
  refine ⟨?_, hdisj⟩
  cases sb
  · -- supports_batching = false
    unfold CompareDims
    simp only [Bool.false_eq_true, if_false]
    split_ifs with h
    · exact iff_of_true rfl ⟨h.1, (dimsLoopMatch_iff ce _).mp h.2⟩
    · exact iff_of_false (by simp)
        fun hr => h ⟨hr.1, (dimsLoopMatch_iff ce _).mpr hr.2⟩
  · -- supports_batching = true
    unfold CompareDims
    simp only [eq_self_iff_true, if_true]
    split_ifs with hc1 hc2
    · -- bad leading dimension
      refine iff_of_false (by simp) ?_
      rintro ⟨h1, h2, -, -⟩
      simp only [TRITONTF_Shape.rank] at hc1
      rcases mdims with _ | ⟨d0, tl⟩
      · cases h2
      · have hd0 : d0 = WILDCARD_DIM := by simpa using h2
        rcases hc1 with h0 | hne
        · simp at h0
        · simp [hd0] at hne
    · -- ranks agree and every dimension matches
      refine iff_of_true rfl ?_
      push_neg at hc1
      obtain ⟨h0, hhd⟩ := hc1
      simp only [TRITONTF_Shape.rank] at h0 hc2 ⊢
      rcases mdims with _ | ⟨d0, tl⟩
      · simp at h0
      · refine ⟨by simp, ?_, by simpa using hc2.1,
          (dimsLoopMatch_iff ce _).mp hc2.2⟩
        simpa using hhd
    · -- shape mismatch
      refine iff_of_false (by simp) ?_
      rintro ⟨h1, h2, h3, h4⟩
      refine hc2 ⟨?_, (dimsLoopMatch_iff ce _).mpr h4⟩
      simpa [TRITONTF_Shape.rank] using h3

/-- C6 (amended): ModelSupportsBatch is true exactly when every tensor either
has rank 0 or has a WILDCARD leading dimension; a tensor of rank at least 1
without a WILDCARD leading dimension flips the result to false, but a rank-0
tensor is skipped by the scan and does not. -/
theorem modelSupportsBatch_spec (model_ios : List (List TRITONTF_IODesc)) :
    ModelSupportsBatch model_ios = true ↔
    ∀ ios ∈ model_ios, ∀ io ∈ ios,
      io.shape.rank = 0 ∨ io.shape.dims.head? = some WILDCARD_DIM :=
  modelSupportsBatch_iff model_ios

/-- C6 counterexample: a signature whose only tensor has rank 0 (so no rank
at least 1 and no WILDCARD leading dimension), yet ModelSupportsBatch returns
true — contradicting the claim that a rank-0 tensor makes the result
false. -/
theorem modelSupportsBatch_rank0_cex :
    ModelSupportsBatch [[⟨"INPUT0", "input0", .fp32, ⟨[]⟩⟩]] = true ∧
    (⟨"INPUT0", "input0", .fp32, ⟨[]⟩⟩ : TRITONTF_IODesc).shape.rank = 0 :=
  ⟨rfl, rfl⟩

/-- C7 (amended): on signatures in which no tensor reports rank 0, the inline
batching-support scan of FixBatchingSupport agrees with ModelSupportsBatch;
the two differ precisely on rank-0 tensors, which the inline scan counts as
non-batching while ModelSupportsBatch skips them. -/
theorem fixBatchingSupport_matches_modelSupportsBatch
    (model_ios : List (List TRITONTF_IODesc))
    (h : ∀ ios ∈ model_ios, ∀ io ∈ ios, io.shape.rank ≠ 0) :
    sigSupportsBatch model_ios = ModelSupportsBatch model_ios := by
  cases hs : sigSupportsBatch model_ios <;>
    cases hm : ModelSupportsBatch model_ios
  · rfl
  · exfalso
    have hmp := (modelSupportsBatch_iff model_ios).mp hm
    have : sigSupportsBatch model_ios = true :=
      (sigSupportsBatch_iff model_ios).mpr fun ios hios io hio =>
        ⟨h ios hios io hio,
         (hmp ios hios io hio).resolve_left (h ios hios io hio)⟩
    rw [hs] at this
    cases this
  · exfalso
    have hsp := (sigSupportsBatch_iff model_ios).mp hs
    have : ModelSupportsBatch model_ios = true :=
      (modelSupportsBatch_iff model_ios).mpr fun ios hios io hio =>
        Or.inr (hsp ios hios io hio).2
    rw [hm] at this
    cases this
  · rfl

/-- C7 witness: a concrete one-tensor signature of rank 2 with WILDCARD
leading dimension satisfies the no-rank-0 hypothesis and the two predicates
agree on it. -/
theorem fixBatchingSupport_matches_modelSupportsBatch_witness :
    (∀ ios ∈ [[(⟨"INPUT0", "input0", .fp32, ⟨[-1, 3]⟩⟩ : TRITONTF_IODesc)]],
      ∀ io ∈ ios, io.shape.rank ≠ 0) ∧
    sigSupportsBatch [[⟨"INPUT0", "input0", .fp32, ⟨[-1, 3]⟩⟩]] =
      ModelSupportsBatch [[⟨"INPUT0", "input0", .fp32, ⟨[-1, 3]⟩⟩]] :=
  ⟨by decide, fixBatchingSupport_matches_modelSupportsBatch _ (by decide)⟩

/-- C7 counterexample: on a signature whose only tensor reports rank 0 the
inline scan of FixBatchingSupport answers false while ModelSupportsBatch
answers true, so the two predicates are not the same boolean. -/
theorem fixBatchingSupport_rank0_cex :
    sigSupportsBatch [[⟨"INPUT0", "input0", .fp32, ⟨[]⟩⟩]] ≠
    ModelSupportsBatch [[⟨"INPUT0", "input0", .fp32, ⟨[]⟩⟩]] := by
  decide

/-- C8: the rank-0 back-fill sets the model-reported rank to configured rank
plus 1 and copies the configured dims into the non-leading positions, but
never writes the leading slot: its value is whatever malloc left there
(uninit_dim), not the WILDCARD constant — for any uninitialized value u the
leading dimension is u, and at the failing input (config dims [4], batching
enabled, residual cell value 7) it is 7, not -1. -/
theorem savedmodel_backfill_shape :
    (∀ (config_dims : List Int) (u : Int),
      (backfillShape config_dims true u).rank = config_dims.length + 1 ∧
      (backfillShape config_dims true u).dims.tail = config_dims ∧
      (backfillShape config_dims true u).dims.head? = some u) ∧
    (backfillShape [4] true 7).dims.head? = some 7 ∧
    (7 : Int) ≠ WILDCARD_DIM := by
  refine ⟨fun config_dims u => ⟨?_, rfl, rfl⟩, rfl, by decide⟩
  simp [backfillShape, TRITONTF_Shape.rank]

/-- C9: the savedmodel input-count check passes exactly when the number of
distinct model input names equals the configured-input count plus batch-input
count plus resolved sequence controls (so a model providing strictly more
inputs than declared is rejected), every failure is an invalid-argument
(configuration) error, and the graphdef check instead passes whenever the
model provides at least as many potential inputs as configured. -/
theorem savedmodel_input_count_strict (model_name : String)
    (model_input_names potential_input_names : List String)
    (config_input_cnt batch_input_cnt graphdef_config_cnt : Nat)
    (have_start have_end have_ready have_corrid : Bool) :
    (savedmodelCheckInputCount model_name model_input_names
        (savedmodelExpectedInputCnt config_input_cnt batch_input_cnt
          have_start have_end have_ready have_corrid) = none ↔
      model_input_names.dedup.length =
        savedmodelExpectedInputCnt config_input_cnt batch_input_cnt
          have_start have_end have_ready have_corrid) ∧
    (savedmodelCheckInputCount model_name model_input_names
        (savedmodelExpectedInputCnt config_input_cnt batch_input_cnt
          have_start have_end have_ready have_corrid) = none ∨
      ∃ msg, savedmodelCheckInputCount model_name model_input_names
        (savedmodelExpectedInputCnt config_input_cnt batch_input_cnt
          have_start have_end have_ready have_corrid) =
        some (.invalidArg msg)) ∧
    (graphdefCheckInputCount model_name potential_input_names
        graphdef_config_cnt = none ↔
      graphdef_config_cnt ≤ potential_input_names.dedup.length) := by
  unfold savedmodelCheckInputCount graphdefCheckInputCount
  refine ⟨?_, ?_, ?_⟩
  · split_ifs with h
    · exact iff_of_false (by simp) h
    · exact iff_of_true rfl (by omega)
  · split_ifs with h
    · exact Or.inr ⟨_, rfl⟩
    · exact Or.inl rfl
  · split_ifs with h
    · exact iff_of_false (by simp) (by omega)
    · exact iff_of_true rfl (by omega)

/-- C10: on the supported domain the datatype conversions are mutually
inverse: every recognized configuration type name other than TYPE_INVALID
round-trips through ConvertDataTypeFromConfig and ConvertToModelConfigString;
every TRITONTF datatype round-trips through the TRITONSERVER conversion and
back, with TRITONTF string mapping to TRITONSERVER bytes and back; and every
unrecognized name or enum value maps to the invalid datatype. -/
theorem datatype_conversions_inverse :
    (∀ s : String, ConvertDataTypeFromConfig s ≠ .invalid →
      ConvertToModelConfigString (ConvertDataTypeFromConfig s) = s) ∧
    (∀ d : TRITONTF_DataType,
      ConvertDataTypeFromServer (ConvertDataType d) = d) ∧
    ConvertDataType .string = .bytes ∧
    ConvertDataTypeFromServer .bytes = .string ∧
    (∀ s : String, s ∉ supportedConfigTypeNames →
      ConvertDataTypeFromConfig s = .invalid) ∧
    ConvertDataTypeFromServer .bf16 = .invalid := by
  have hinv : ∀ s : String, s ∉ supportedConfigTypeNames →
      ConvertDataTypeFromConfig s = .invalid := by
    intro s hmem
    simp only [supportedConfigTypeNames, List.mem_cons,
      List.not_mem_nil, or_false, not_or] at hmem
    obtain ⟨n1, n2, n3, n4, n5, n6, n7, n8, n9, n10, n11, n12, n13, n14⟩ :=
      hmem
    unfold ConvertDataTypeFromConfig
    rw [if_neg n1, if_neg n2, if_neg n3, if_neg n4, if_neg n5, if_neg n6,
      if_neg n7, if_neg n8, if_neg n9, if_neg n10, if_neg n11, if_neg n12,
      if_neg n13, if_neg n14]
  refine ⟨?_, fun d => by cases d <;> rfl, rfl, rfl, hinv, rfl⟩
  intro s hs
  by_cases hmem : s ∈ supportedConfigTypeNames
  · simp only [supportedConfigTypeNames, List.mem_cons,
      List.not_mem_nil, or_false] at hmem
    rcases hmem with h | h | h | h | h | h | h | h | h | h | h | h | h | h <;>
      subst h
    · exact absurd rfl hs
    all_goals rfl
  · exact absurd (hinv s hmem) hs

/-- C10 witness: the round-trip theorem applied at the concrete supported
name TYPE_FP32. -/
theorem datatype_conversions_inverse_witness :
    ConvertDataTypeFromConfig "TYPE_FP32" ≠ .invalid ∧
    ConvertToModelConfigString (ConvertDataTypeFromConfig "TYPE_FP32") =
      "TYPE_FP32" :=
  ⟨by decide, datatype_conversions_inverse.1 "TYPE_FP32" (by decide)⟩

/-- The batch-size loop over non-null requests accumulates, per request, the
leading dimension of the first input when batching is enabled and 1
otherwise. -/
lemma collectTotalBatchSize_ok (name : String) (reqs : List BackendRequest)
    (max_batch_size : Nat)
    (h : 0 < max_batch_size → ∀ r ∈ reqs, r.inputs ≠ []) :
    ∀ acc : Nat,
    collectTotalBatchSize name (reqs.map some) max_batch_size acc =
      .ok (acc + (if 0 < max_batch_size then
          (reqs.map fun r => (r.inputs.headD []).headD 0).sum
        else reqs.length)) := by
  induction reqs with
  | nil => intro acc; simp [collectTotalBatchSize]
  | cons r rs ih =>
    intro acc
    have htail : 0 < max_batch_size → ∀ r2 ∈ rs, r2.inputs ≠ [] :=
      fun hm r2 hr2 => h hm r2 (List.mem_cons_of_mem r hr2)
    simp only [List.map_cons, collectTotalBatchSize]
    by_cases hm : 0 < max_batch_size
    · have hne := h hm r (List.mem_cons_self r rs)
      rcases hr : r.inputs with _ | ⟨s, tl⟩
      · exact absurd hr hne
      · simp only [hr, List.head?_cons, if_pos hm]
        rw [ih htail (acc + s.headD 0)]
        simp only [if_pos hm, hr, List.map_cons, List.sum_cons,
          List.headD_cons]
        congr 1
        omega
    · rw [if_neg hm, ih htail (acc + 1)]
      simp only [if_neg hm, List.length_cons]
      congr 1
      omega

/-- C1 (amended): over N non-null requests each providing a first input, the
total batch size computed by ProcessRequests equals the sum of the leading
dimensions of the requests' first inputs when batching is enabled
(max_batch_size > 0) and equals N when batching is disabled; the cycle
returns silently when that total is 0, aborts with one internal error
reported identically to every pending request — with no execution attempted —
exactly when the total differs from 1 AND exceeds max_batch_size, and
otherwise commits to running inference. (The claim's unconditional
"exceeding max_batch_size aborts" fails in the disabled-batching case with a
single request, where total = 1 > max_batch_size = 0 yet the cycle
proceeds.) -/
theorem processRequests_batchSize_spec (name : String)
    (reqs : List BackendRequest) (max_batch_size total : Nat)
    (htotal : total = if 0 < max_batch_size then
        (reqs.map fun r => (r.inputs.headD []).headD 0).sum
      else reqs.length)
    (h : 0 < max_batch_size → ∀ r ∈ reqs, r.inputs ≠ []) :
    ProcessRequestsBatchPhase name (reqs.map some) max_batch_size =
      (if total = 0 then .emptyReturn
       else if total ≠ 1 ∧ max_batch_size < total then
         .abortAll (.internal (batchTooLargeMsg total name max_batch_size))
       else .proceed total) := by
  subst htotal
  unfold ProcessRequestsBatchPhase
  rw [collectTotalBatchSize_ok name reqs max_batch_size h 0]
  simp only [Nat.zero_add]

/-- C1 witness: two requests with first-input leading dimensions 2 and 3
under max_batch_size 8 give total 5 and the cycle proceeds. -/
theorem processRequests_batchSize_spec_witness :
    ((5 : Nat) = if 0 < 8 then
        (([⟨[[2], [5]]⟩, ⟨[[3]]⟩] : List BackendRequest).map
          fun r => (r.inputs.headD []).headD 0).sum
      else ([⟨[[2], [5]]⟩, ⟨[[3]]⟩] : List BackendRequest).length) ∧
    (0 < 8 → ∀ r ∈ ([⟨[[2], [5]]⟩, ⟨[[3]]⟩] : List BackendRequest),
      r.inputs ≠ []) ∧
    ProcessRequestsBatchPhase "m"
        (([⟨[[2], [5]]⟩, ⟨[[3]]⟩] : List BackendRequest).map some) 8 =
      (if (5 : Nat) = 0 then .emptyReturn
       else if (5 : Nat) ≠ 1 ∧ 8 < 5 then
         .abortAll (.internal (batchTooLargeMsg 5 "m" 8))
       else .proceed 5) :=
  ⟨by decide, by decide,
   processRequests_batchSize_spec "m" [⟨[[2], [5]]⟩, ⟨[[3]]⟩] 8 5
     (by decide) (by decide)⟩

/-- C1 counterexample: with batching disabled (max_batch_size = 0) and one
request, the computed total is 1, which exceeds max_batch_size 0, yet the
cycle does not abort — it proceeds to execution — because the source only
aborts when total_batch_size differs from 1 and exceeds the maximum. -/
theorem processRequests_batchSize_cex :
    ProcessRequestsBatchPhase "m" [some ⟨[[1]]⟩] 0 = .proceed 1 ∧
    (0 : Nat) < 1 :=
  ⟨rfl, by decide⟩

/-- getD of a replicate list inside its length. -/
lemma getD_replicate_of_lt {α : Type} (n i : Nat) (a d : α) (h : i < n) :
    (List.replicate n a).getD i d = a := by
  rw [List.getD_eq_getElem?_getD, List.getElem?_replicate, if_pos h]
  rfl

/-- Send-discipline invariant for one response: either still live with no
send, or nulled after exactly one send. -/
def okOnce (s : RState) : Prop :=
  (s.live = true ∧ s.sent = 0) ∨ (s.live = false ∧ s.sent = 1)

/-- RESPOND_AND_SET_NULL_IF_ERROR preserves the send-once discipline. -/
lemma respondAndSetNullSend_okOnce {s : RState} (h : okOnce s) :
    okOnce (respondAndSetNullSend s) := by
  rcases h with ⟨h1, h2⟩ | ⟨h1, h2⟩ <;>
    simp [okOnce, respondAndSetNullSend, h1, h2]

/-- Any sequence of per-request error events preserves the send-once
discipline. -/
lemma foldl_errs_okOnce (errs : List Bool) {s : RState} (h : okOnce s) :
    okOnce (errs.foldl
      (fun s e => if e then respondAndSetNullSend s else s) s) := by
  induction errs generalizing s with
  | nil => exact h
  | cons e es ih =>
    simp only [List.foldl_cons]
    cases e
    · exact ih h
    · exact ih (respondAndSetNullSend_okOnce h)

/-- A closing send on a response respecting the send-once discipline brings
its total send count to exactly 1. -/
lemma sendIfLive_sent {s : RState} (h : okOnce s) : (sendIfLive s).sent = 1 := by
  rcases h with ⟨h1, h2⟩ | ⟨h1, h2⟩ <;> simp [sendIfLive, h1, h2]

/-- A request whose response creation succeeded is sent exactly once on every
path through a committed cycle. -/
lemma requestCycleSends_one (ie : List Bool) (am : Bool) (oe : List Bool) :
    requestCycleSends true ie am oe = 1 := by
  unfold requestCycleSends
  have h0 : okOnce ⟨true, 0⟩ := Or.inl ⟨rfl, rfl⟩
  have h1 := foldl_errs_okOnce ie h0
  cases am
  · simp only [Bool.false_eq_true, if_false]
    exact sendIfLive_sent (foldl_errs_okOnce oe h1)
  · simp only [if_true]
    exact sendIfLive_sent h1

/-- C4 (amended): in every execution cycle whose batch-size phase does not
take the total-batch-size-0 early return, every request whose response
creation succeeded is finalized (sent) exactly once — never twice and never
left unsent — whether the cycle aborts early with a broadcast error, hits
per-request errors during input gathering or output distribution, aborts on
an allocation or engine failure, or completes normally. (The claim's
unconditional form fails at a cycle whose computed total batch size is 0,
where the source returns without sending anything.) -/
theorem processRequests_responds_once (o : CycleOracle) (i : Nat)
    (hi : i < o.requests.length)
    (hne : ProcessRequestsBatchPhase o.model_name o.requests
      o.max_batch_size ≠ .emptyReturn)
    (hnew : o.responseNewOk.getD i true = true) :
    (ProcessRequestsSends o).getD i 0 = 1 := by
  unfold ProcessRequestsSends
  rcases hout : ProcessRequestsBatchPhase o.model_name o.requests
      o.max_batch_size with e | _ | t
  · exact getD_replicate_of_lt _ _ _ _ hi
  · exact absurd hout hne
  · rw [List.getD_eq_getElem?_getD, List.getElem?_map,
      List.getElem?_range hi]
    simp only [Option.map_some', Option.getD_some]
    rw [hnew]
    exact requestCycleSends_one _ _ _

/-- C4 witness: a committed one-request cycle whose request hits an
input-gathering error is still finalized exactly once. -/
theorem processRequests_responds_once_witness :
    (0 < ([some (⟨[[2]]⟩ : BackendRequest)] : List _).length) ∧
    (ProcessRequestsBatchPhase "m" [some (⟨[[2]]⟩ : BackendRequest)] 8 ≠
      .emptyReturn) ∧
    (([true] : List Bool).getD 0 true = true) ∧
    (ProcessRequestsSends
      ⟨[some ⟨[[2]]⟩], 8, "m", [true], [[true]], false, [[]]⟩).getD 0 0 = 1 :=
  ⟨by decide, by decide, by decide,
   processRequests_responds_once
     ⟨[some ⟨[[2]]⟩], 8, "m", [true], [[true]], false, [[]]⟩ 0
     (by decide) (by decide) (by decide)⟩

/-- C4 counterexample: a cycle over one pending request whose first input has
leading dimension 0 computes total batch size 0 and returns without sending
any response: the request is finalized zero times, not exactly once. -/
theorem processRequests_zero_total_cex :
    ProcessRequestsSends
      ⟨[some ⟨[[0]]⟩], 4, "m", [true], [[]], false, [[]]⟩ = [0] ∧
    (0 : Nat) ≠ 1 :=
  ⟨rfl, by decide⟩

/-
Lemmas on the string tensor span algebra.
-/

/-- splice with the empty span is the identity. -/
lemma splice_nil (t : List (List Nat)) (i : Nat) : splice t i [] = t := by
  unfold splice
  rw [List.length_nil, Nat.add_zero, List.append_nil, List.take_append_drop]

/-- splice pushes through a cons cell of the tensor. -/
lemma splice_cons_succ (a : List Nat) (t : List (List Nat)) (i : Nat)
    (sp : List (List Nat)) :
    splice (a :: t) (i + 1) sp = a :: splice t i sp := by
  unfold splice
  rw [List.take_succ_cons, Nat.add_right_comm, List.drop_succ_cons]
  simp [List.cons_append]

/-- splice of a cons span at offset 0. -/
lemma splice_zero_cons (a s : List Nat) (t : List (List Nat))
    (sp : List (List Nat)) :
    splice (a :: t) 0 (s :: sp) = s :: splice t 0 sp := by
  unfold splice
  simp only [List.take_zero, List.nil_append, List.length_cons, Nat.zero_add,
    List.drop_succ_cons, List.cons_append]

/-- splice inside the tensor preserves its length. -/
lemma length_splice (t : List (List Nat)) (i : Nat) (sp : List (List Nat))
    (h : i + sp.length ≤ t.length) :
    (splice t i sp).length = t.length := by
  unfold splice
  simp only [List.length_append, List.length_take, List.length_drop]
  omega

/-- Writing one slot and then splicing right after it equals splicing the
extended span. -/
lemma set_splice_cons (t : List (List Nat)) (i : Nat) (s : List Nat)
    (sp : List (List Nat)) (h : i < t.length) :
    splice (t.set i s) (i + 1) sp = splice t i (s :: sp) := by
  induction t generalizing i with
  | nil => simp at h
  | cons a tl ih =>
    cases i with
    | zero =>
      rw [List.set_cons_zero, splice_cons_succ, splice_zero_cons]
    | succ j =>
      have hj : j < tl.length := by simpa using h
      rw [List.set_cons_succ, splice_cons_succ, splice_cons_succ, ih j hj]

/-- FillStringTensor is the splice of a span of empty strings. -/
lemma fill_eq_splice (c : Nat) : ∀ (t : List (List Nat)) (i : Nat),
    i + c ≤ t.length →
    FillStringTensor t i c = splice t i (List.replicate c []) := by
  induction c with
  | zero =>
    intro t i h
    show t = splice t i []
    rw [splice_nil]
  | succ c ih =>
    intro t i h
    show FillStringTensor (TRITONTF_TensorSetString t i []) (i + 1) c = _
    rw [ih (TRITONTF_TensorSetString t i []) (i + 1)
      (by simp only [TRITONTF_TensorSetString, List.length_set]; omega)]
    show splice (t.set i []) (i + 1) (List.replicate c []) = _
    rw [set_splice_cons t i [] _ (by omega)]
    rfl

/-- The span written for one request always has exactly the declared element
count. -/
lemma stringSpan_length_aux : ∀ (n : Nat) (content : List Nat),
    content.length ≤ n → ∀ k, (stringSpan content k).length = k := by
  intro n
  induction n with
  | zero =>
    intro content hlen k
    rcases content with _ | ⟨b0, rest⟩
    · simp [stringSpan]
    · simp at hlen
  | succ n ih =>
    intro content hlen k
    rcases content with _ | ⟨b0, _ | ⟨b1, _ | ⟨b2, _ | ⟨b3, rest⟩⟩⟩⟩
    · simp [stringSpan]
    · simp [stringSpan]
    · simp [stringSpan]
    · simp [stringSpan]
    · rw [stringSpan]
      split_ifs with h1 h2
      · simp [h1]
      · simp
      · simp only [List.length_cons]
        rw [ih (rest.drop (readLE32 b0 b1 b2 b3))
          (by simp at hlen ⊢; omega) (k - 1)]
        omega

/-- Wrapper for stringSpan_length_aux. -/
lemma stringSpan_length (content : List Nat) (k : Nat) :
    (stringSpan content k).length = k :=
  stringSpan_length_aux content.length content le_rfl k

/-- Main characterization of the SetStringInputTensor loop entered with a
live response: it writes exactly the span stringSpan into the request's slot
range and leaves the response in the state setStringResultAux computes. -/
lemma setStringInputLoop_spec_aux : ∀ (n : Nat) (content : List Nat),
    content.length ≤ n →
    ∀ (tensor : List (List Nat)) (name : String) (cnt offset elemIdx : Nat),
    elemIdx ≤ cnt → offset + cnt ≤ tensor.length →
    setStringInputLoop tensor content name cnt offset elemIdx .ok =
      (splice tensor (offset + elemIdx) (stringSpan content (cnt - elemIdx)),
       setStringResultAux content name cnt elemIdx) := by
  intro n
  induction n with
  | zero =>
    intro content hlen tensor name cnt offset elemIdx hle hfit
    rcases content with _ | ⟨b0, rest⟩
    · simp only [setStringInputLoop, setStringResultAux, stringSpan]
      by_cases hne : elemIdx = cnt
      · subst hne
        simp [Nat.sub_self, splice_nil]
      · rw [if_pos (show _ ∧ _ from ⟨by trivial, hne⟩), if_pos hne,
          fill_eq_splice (cnt - elemIdx) tensor (offset + elemIdx) (by omega)]
        simp [respondAndSetNull]
    · simp at hlen
  | succ n ih =>
    intro content hlen tensor name cnt offset elemIdx hle hfit
    rcases content with _ | ⟨b0, _ | ⟨b1, _ | ⟨b2, _ | ⟨b3, rest⟩⟩⟩⟩
    rotate_left 4
    · -- at least 4 content bytes remain
      rw [setStringInputLoop, setStringResultAux, stringSpan]
      by_cases hstop : cnt ≤ elemIdx
      · have heq : elemIdx = cnt := le_antisymm hle hstop
        subst heq
        simp [Nat.sub_self, splice_nil, respondAndSetNull, FillStringTensor]
      · have hlt : elemIdx < cnt := lt_of_not_le hstop
        by_cases htr : rest.length < readLE32 b0 b1 b2 b3
        · rw [if_neg hstop, if_neg hstop,
            if_neg (by omega : ¬ cnt - elemIdx = 0),
            if_pos htr, if_pos htr, if_pos htr,
            fill_eq_splice (cnt - elemIdx) tensor (offset + elemIdx)
              (by omega)]
          simp [respondAndSetNull]
        · rw [if_neg hstop, if_neg hstop,
            if_neg (by omega : ¬ cnt - elemIdx = 0),
            if_neg htr, if_neg htr, if_neg htr]
          rw [ih (rest.drop (readLE32 b0 b1 b2 b3))
            (by simp at hlen ⊢; omega)
            (TRITONTF_TensorSetString tensor (offset + elemIdx)
              (rest.take (readLE32 b0 b1 b2 b3)))
            name cnt offset (elemIdx + 1) (by omega)
            (by simp only [TRITONTF_TensorSetString, List.length_set]
                exact hfit)]
          simp only [TRITONTF_TensorSetString]
          rw [show offset + (elemIdx + 1) = (offset + elemIdx) + 1 from rfl,
            set_splice_cons tensor (offset + elemIdx) _ _ (by omega)]
          rfl
    all_goals
      (simp only [setStringInputLoop, setStringResultAux, stringSpan]
       by_cases hne : elemIdx = cnt
       · subst hne
         simp [Nat.sub_self, splice_nil]
       · rw [if_pos (show _ ∧ _ from ⟨by trivial, hne⟩), if_pos hne,
           fill_eq_splice (cnt - elemIdx) tensor (offset + elemIdx)
             (by omega)]
         simp [respondAndSetNull])

/-- Wrapper: SetStringInputTensor on a live response equals the pure span
write plus the pure response outcome. -/
lemma setStringInputTensor_spec (tensor : List (List Nat))
    (content : List Nat) (name : String) (cnt offset : Nat)
    (h : offset + cnt ≤ tensor.length) :
    SetStringInputTensor tensor content name cnt offset .ok =
      (splice tensor offset (stringSpan content cnt),
       setStringResultAux content name cnt 0) := by
  unfold SetStringInputTensor
  rw [setStringInputLoop_spec_aux content.length content le_rfl tensor name
    cnt offset 0 (Nat.zero_le cnt) h]
  simp

/-- The loop result is ok exactly when the payload is a well-formed encoding
of the declared element count. -/
lemma setStringResultAux_ok_iff_aux : ∀ (n : Nat) (content : List Nat),
    content.length ≤ n →
    ∀ (name : String) (cnt elemIdx : Nat), elemIdx ≤ cnt →
    (setStringResultAux content name cnt elemIdx = .ok ↔
      wellFormedStringPayload content (cnt - elemIdx) = true) := by
  intro n
  induction n with
  | zero =>
    intro content hlen name cnt elemIdx hle
    rcases content with _ | ⟨b0, rest⟩
    · simp only [setStringResultAux, wellFormedStringPayload]
      by_cases hne : elemIdx = cnt
      · subst hne
        simp [Nat.sub_self]
      · rw [if_pos hne]
        refine iff_of_false (by simp) ?_
        simp only [beq_iff_eq]
        omega
    · simp at hlen
  | succ n ih =>
    intro content hlen name cnt elemIdx hle
    rcases content with _ | ⟨b0, _ | ⟨b1, _ | ⟨b2, _ | ⟨b3, rest⟩⟩⟩⟩
    rotate_left 4
    · rw [setStringResultAux, wellFormedStringPayload]
      by_cases hstop : cnt ≤ elemIdx
      · have heq : elemIdx = cnt := le_antisymm hle hstop
        subst heq
        rw [if_pos hstop, if_pos (Nat.sub_self _)]
        exact iff_of_false (by simp) (by simp)
      · have hlt : elemIdx < cnt := lt_of_not_le hstop
        rw [if_neg hstop, if_neg (by omega : ¬ cnt - elemIdx = 0)]
        by_cases htr : rest.length < readLE32 b0 b1 b2 b3
        · rw [if_pos htr, if_pos htr]
          exact iff_of_false (by simp) (by simp)
        · rw [if_neg htr, if_neg htr]
          exact ih (rest.drop (readLE32 b0 b1 b2 b3))
            (by simp at hlen ⊢; omega) name cnt (elemIdx + 1) (by omega)
    all_goals
      (simp only [setStringResultAux, wellFormedStringPayload]
       by_cases hne : elemIdx = cnt
       · subst hne
         simp [Nat.sub_self]
       · rw [if_pos hne]
         refine iff_of_false (by simp) ?_
         simp only [beq_iff_eq]
         omega)

/-- The span written for a request is its decoded prefix padded with empty
strings up to the declared count; on a well-formed payload the prefix is the
whole span. -/
lemma stringSpan_decomposition_aux : ∀ (n : Nat) (content : List Nat),
    content.length ≤ n → ∀ k, ∃ decoded : List (List Nat),
      stringSpan content k =
        decoded ++ List.replicate (k - decoded.length) [] ∧
      decoded.length ≤ k ∧
      (wellFormedStringPayload content k = true → decoded.length = k) := by
  intro n
  induction n with
  | zero =>
    intro content hlen k
    rcases content with _ | ⟨b0, rest⟩
    · refine ⟨[], by simp [stringSpan], by simp, ?_⟩
      intro hwf
      simp only [wellFormedStringPayload, beq_iff_eq] at hwf
      simp [hwf]
    · simp at hlen
  | succ n ih =>
    intro content hlen k
    rcases content with _ | ⟨b0, _ | ⟨b1, _ | ⟨b2, _ | ⟨b3, rest⟩⟩⟩⟩
    rotate_left 4
    · by_cases hk : k = 0
      · subst hk
        exact ⟨[], by simp [stringSpan], by simp, fun _ => rfl⟩
      · by_cases htr : rest.length < readLE32 b0 b1 b2 b3
        · refine ⟨[], ?_, by simp, ?_⟩
          · rw [stringSpan, if_neg hk, if_pos htr]
            simp
          · intro hwf
            rw [wellFormedStringPayload, if_neg hk, if_pos htr] at hwf
            cases hwf
        · obtain ⟨d, hd1, hd2, hd3⟩ := ih (rest.drop (readLE32 b0 b1 b2 b3))
            (by simp at hlen ⊢; omega) (k - 1)
          refine ⟨rest.take (readLE32 b0 b1 b2 b3) :: d, ?_, ?_, ?_⟩
          · rw [stringSpan, if_neg hk, if_neg htr, hd1]
            simp only [List.cons_append, List.length_cons]
            rw [show k - (d.length + 1) = k - 1 - d.length from by omega]
          · simp only [List.length_cons]
            omega
          · intro hwf
            rw [wellFormedStringPayload, if_neg hk, if_neg htr] at hwf
            simp only [List.length_cons]
            have := hd3 hwf
            omega
    all_goals
      (refine ⟨[], by simp [stringSpan], by simp, ?_⟩
       intro hwf
       simp only [wellFormedStringPayload, beq_iff_eq] at hwf
       simp [hwf])

/-- The output serialization of zero elements is empty. -/
lemma setStringOutputBuffer_zero (tensor : List (List Nat)) (offset : Nat) :
    SetStringOutputBuffer tensor 0 offset = [] := by
  simp [SetStringOutputBuffer]

/-- One step of the output serialization at offset 0. -/
lemma setStringOutputBuffer_cons (s : List Nat) (rest : List (List Nat)) :
    SetStringOutputBuffer (s :: rest) (rest.length + 1) 0 =
      (toLE32 s.length ++ s) ++ SetStringOutputBuffer rest rest.length 0 := by
  unfold SetStringOutputBuffer
  rw [List.range_succ_eq_map]
  simp [List.map_map, Function.comp_def, List.getD_cons_succ,
    List.getD_cons_zero]

/-- Reading back the 4-byte little-endian header recovers the length modulo
2 to the 32. -/
lemma readLE32_toLE32 (m : Nat) :
    readLE32 (m % 256) (m / 256 % 256) (m / 65536 % 256)
      (m / 16777216 % 256) = m % 4294967296 := by
  unfold readLE32
  omega

/-- Round trip at the span level: parsing the serialized buffer of elements
whose lengths fit in 32 bits yields the elements back, well-formed. -/
lemma roundTrip_span (elems : List (List Nat))
    (hsz : ∀ s ∈ elems, s.length < 4294967296) :
    stringSpan (SetStringOutputBuffer elems elems.length 0) elems.length =
      elems ∧
    wellFormedStringPayload (SetStringOutputBuffer elems elems.length 0)
      elems.length = true := by
  induction elems with
  | nil =>
    constructor
    · simp [setStringOutputBuffer_zero, stringSpan]
    · simp [setStringOutputBuffer_zero, wellFormedStringPayload]
  | cons s rest ih =>
    have hs : s.length < 4294967296 := hsz s (List.mem_cons_self s rest)
    obtain ⟨ih1, ih2⟩ :=
      ih fun s2 hs2 => hsz s2 (List.mem_cons_of_mem s hs2)
    have hread := readLE32_toLE32 s.length
    rw [Nat.mod_eq_of_lt hs] at hread
    have hbuf : SetStringOutputBuffer (s :: rest) (rest.length + 1) 0 =
        (s.length % 256) :: (s.length / 256 % 256) ::
        (s.length / 65536 % 256) :: (s.length / 16777216 % 256) ::
        (s ++ SetStringOutputBuffer rest rest.length 0) := by
      rw [setStringOutputBuffer_cons]
      simp [toLE32, List.cons_append, List.append_assoc]
    rw [List.length_cons, hbuf]
    have hnotlt : ¬ ((s ++ SetStringOutputBuffer rest rest.length 0).length <
        readLE32 (s.length % 256) (s.length / 256 % 256)
          (s.length / 65536 % 256) (s.length / 16777216 % 256)) := by
      rw [hread, List.length_append]
      omega
    constructor
    · rw [stringSpan, if_neg (by omega : ¬ rest.length + 1 = 0),
        if_neg hnotlt, hread, List.take_left, List.drop_left]
      rw [show rest.length + 1 - 1 = rest.length from rfl, ih1]
    · rw [wellFormedStringPayload, if_neg (by omega : ¬ rest.length + 1 = 0),
        if_neg hnotlt, hread, List.drop_left]
      rw [show rest.length + 1 - 1 = rest.length from rfl]
      exact ih2

/-- Taking the processed prefix of a splice. -/
lemma take_splice (t : List (List Nat)) (offset : Nat)
    (sp : List (List Nat)) (h : offset + sp.length ≤ t.length) :
    (splice t offset sp).take (offset + sp.length) = t.take offset ++ sp := by
  unfold splice
  have hlen : (t.take offset ++ sp).length = offset + sp.length := by
    simp only [List.length_append, List.length_take]
    omega
  rw [← hlen, List.take_left]

/-- Compositionality of the per-request string-input loop: with all responses
entering live and the batched tensor sized to the whole batch, the loop
writes each request's own span into its own slot range and delivers each
request's own response outcome — requests do not affect each other. -/
lemma processStringRequests_spec : ∀ (reqs : List (List Nat × Nat))
    (tensor : List (List Nat)) (name : String) (offset : Nat),
    tensor.length = offset + (reqs.map Prod.snd).sum →
    processStringRequests tensor name reqs
        (List.replicate reqs.length .ok) offset =
      (tensor.take offset ++
        (reqs.map fun p => stringSpan p.1 p.2).flatten,
       reqs.map fun p => setStringResultAux p.1 name p.2 0) := by
  intro reqs
  induction reqs with
  | nil =>
    intro tensor name offset h
    simp only [List.map_nil, List.sum_nil, Nat.add_zero] at h
    show (tensor, ([] : List RespState)) = _
    rw [List.map_nil, List.flatten_nil, List.append_nil, List.map_nil,
      show offset = tensor.length from h.symm, List.take_length]
  | cons p rs ih =>
    intro tensor name offset h
    obtain ⟨c, k⟩ := p
    simp only [List.map_cons, List.sum_cons] at h
    have hfit : offset + k ≤ tensor.length := by omega
    simp only [List.length_cons, List.replicate_succ, processStringRequests]
    rw [setStringInputTensor_spec tensor c name k offset hfit]
    have hlen2 : (splice tensor offset (stringSpan c k)).length =
        offset + k + (rs.map Prod.snd).sum := by
      rw [length_splice tensor offset (stringSpan c k)
        (by rw [stringSpan_length]; exact hfit)]
      omega
    rw [ih (splice tensor offset (stringSpan c k)) name (offset + k) hlen2]
    simp only [List.map_cons, List.flatten_cons]
    have htake : (splice tensor offset (stringSpan c k)).take (offset + k) =
        tensor.take offset ++ stringSpan c k := by
      rw [show offset + k = offset + (stringSpan c k).length from by
          rw [stringSpan_length],
        take_splice tensor offset (stringSpan c k)
          (by rw [stringSpan_length]; exact hfit)]
    rw [htake, List.append_assoc]

/-
Claim theorems for the string marshalling.
-/

/-- C2 (amended): serializing M byte strings, each shorter than 2^32 bytes,
with the 4-byte-length-prefix encoding of SetStringOutputBuffer and parsing
the result with the SetStringInputTensor decoding loop under declared element
count M yields exactly the original M strings, byte for byte, with the
response left successful. (Without the 2^32 bound the claim fails: the
header stores only the low 32 bits of the length.) -/
theorem stringRoundTrip (elems : List (List Nat)) (name : String)
    (tensor0 : List (List Nat))
    (hlen : tensor0.length = elems.length)
    (hsz : ∀ s ∈ elems, s.length < 4294967296) :
    SetStringInputTensor tensor0
        (SetStringOutputBuffer elems elems.length 0) name elems.length 0
        .ok =
      (elems, .ok) := by
  obtain ⟨h1, h2⟩ := roundTrip_span elems hsz
  rw [setStringInputTensor_spec tensor0 _ name elems.length 0 (by omega),
    h1]
  have hsp : splice tensor0 0 elems = elems := by
    unfold splice
    rw [List.take_zero, List.nil_append, Nat.zero_add, ← hlen,
      List.drop_length, List.append_nil]
  rw [hsp]
  have hok : setStringResultAux
      (SetStringOutputBuffer elems elems.length 0) name elems.length 0 =
      .ok := by
    refine (setStringResultAux_ok_iff_aux _ _ le_rfl name elems.length 0
      (Nat.zero_le _)).mpr ?_
    simpa using h2
  rw [hok]

/-- C2 witness: the round-trip theorem applied to three concrete strings
including the empty string. -/
theorem stringRoundTrip_witness :
    (([[], [], []] : List (List Nat)).length =
      ([[72, 105], [], [0]] : List (List Nat)).length) ∧
    (∀ s ∈ ([[72, 105], [], [0]] : List (List Nat)),
      s.length < 4294967296) ∧
    SetStringInputTensor [[], [], []]
        (SetStringOutputBuffer [[72, 105], [], [0]]
          ([[72, 105], [], [0]] : List (List Nat)).length 0) "INPUT0"
        ([[72, 105], [], [0]] : List (List Nat)).length 0 .ok =
      ([[72, 105], [], [0]], .ok) :=
  ⟨rfl, by decide,
   stringRoundTrip [[72, 105], [], [0]] "INPUT0" [[], [], []] rfl
     (by decide)⟩

/-- C2 counterexample: for a single string of exactly 2^32 bytes the
length header wraps to 0, so parsing the serialized buffer does not return
the original string (the tensor slot receives the empty string and the
response is failed), refuting the unrestricted round-trip claim. -/
theorem stringRoundTrip_cex :
    (SetStringInputTensor [[]]
        (SetStringOutputBuffer [List.replicate 4294967296 0] 1 0)
        "INPUT0" 1 0 .ok).1 ≠ [List.replicate 4294967296 0] := by
  have heval : (SetStringInputTensor [[]]
      (SetStringOutputBuffer [List.replicate 4294967296 0] 1 0)
      "INPUT0" 1 0 .ok).1 = [[]] := by
    have hrep : List.replicate 4294967296 (0 : Nat) =
        0 :: 0 :: 0 :: 0 :: List.replicate 4294967292 0 := by
      rw [show (4294967296 : Nat) = 4 + 4294967292 from by norm_num,
        List.replicate_add]
      rfl
    have hr0 : readLE32 0 0 0 0 = 0 := by simp [readLE32]
    have h1 := setStringOutputBuffer_cons (List.replicate 4294967296 0) []
    simp only [List.length_nil, Nat.zero_add] at h1
    have hbuf : SetStringOutputBuffer [List.replicate 4294967296 0] 1 0 =
        0 :: 0 :: 0 :: 0 :: List.replicate 4294967296 0 := by
      rw [h1, setStringOutputBuffer_zero]
      simp only [toLE32, List.length_replicate, List.append_nil]
      norm_num
    rw [hbuf]
    unfold SetStringInputTensor
    rw [setStringInputLoop, if_neg (by omega : ¬ (1 : Nat) ≤ 0),
      if_neg (by rw [hr0]; omega :
        ¬ (List.replicate 4294967296 (0 : Nat)).length < readLE32 0 0 0 0)]
    rw [hr0]
    simp only [List.take_zero, List.drop_zero, TRITONTF_TensorSetString]
    rw [hrep, setStringInputLoop, if_pos (by omega : (1 : Nat) ≤ 0 + 1)]
    simp [FillStringTensor]
  rw [heval]
  intro hcontra
  have h0 := congrArg (fun l => (l.headD []).length) hcontra
  simp only [List.headD_cons, List.length_nil, List.length_replicate] at h0
  exact absurd h0 (by norm_num)

/-- C3: for a batch of string-input requests all entering with live
responses, the per-request loop is compositional: the batched tensor is the
concatenation of each request's own span and each response receives its own
outcome only (so a malformed request fails only itself and siblings are
unaffected); a request's loop result is successful exactly when its payload
encodes exactly the declared element count; every span is the decoded prefix
padded with empty strings to the declared count; and a truncated length
header (promising more bytes than remain) yields a span of empty strings and
a failed response with the incomplete-data error. -/
theorem stringInput_perRequest_isolation (name : String)
    (reqs : List (List Nat × Nat)) (tensor : List (List Nat))
    (resps : List RespState)
    (hlen : tensor.length = (reqs.map Prod.snd).sum)
    (hresp : resps = List.replicate reqs.length .ok) :
    processStringRequests tensor name reqs resps 0 =
      ((reqs.map fun p => stringSpan p.1 p.2).flatten,
       reqs.map fun p => setStringResultAux p.1 name p.2 0) ∧
    (∀ content k, setStringResultAux content name k 0 = .ok ↔
      wellFormedStringPayload content k = true) ∧
    (∀ content k, ∃ decoded : List (List Nat),
      stringSpan content k =
        decoded ++ List.replicate (k - decoded.length) [] ∧
      decoded.length ≤ k ∧
      (wellFormedStringPayload content k = true → decoded.length = k)) ∧
    (∀ b0 b1 b2 b3 rest k, k ≠ 0 →
      rest.length < readLE32 b0 b1 b2 b3 →
      stringSpan (b0 :: b1 :: b2 :: b3 :: rest) k = List.replicate k [] ∧
      setStringResultAux (b0 :: b1 :: b2 :: b3 :: rest) name k 0 =
        .failed (incompleteMsg name (readLE32 b0 b1 b2 b3) rest.length)) := by
  subst hresp
  refine ⟨?_, ?_, ?_, ?_⟩
  · have := processStringRequests_spec reqs tensor name 0 (by simpa using hlen)
    simpa using this
  · intro content k
    have := setStringResultAux_ok_iff_aux content.length content le_rfl name
      k 0 (Nat.zero_le _)
    simpa using this
  · intro content k
    exact stringSpan_decomposition_aux content.length content le_rfl k
  · intro b0 b1 b2 b3 rest k hk htr
    constructor
    · rw [stringSpan, if_neg hk, if_pos htr]
    · rw [setStringResultAux, if_neg (by omega : ¬ k ≤ 0), if_pos htr]

/-- C3 witness: three one-element requests, the middle one with a truncated
length header (it promises 5 bytes with 1 remaining); the batch result is
the per-request composition applied at these concrete payloads. -/
theorem stringInput_perRequest_isolation_witness :
    (([[], [], []] : List (List Nat)).length =
      (([([1, 0, 0, 0, 65], 1), ([5, 0, 0, 0, 66], 1),
        ([1, 0, 0, 0, 67], 1)] : List (List Nat × Nat)).map Prod.snd).sum) ∧
    processStringRequests [[], [], []] "INPUT0"
        [([1, 0, 0, 0, 65], 1), ([5, 0, 0, 0, 66], 1), ([1, 0, 0, 0, 67], 1)]
        (List.replicate
          ([([1, 0, 0, 0, 65], 1), ([5, 0, 0, 0, 66], 1),
            ([1, 0, 0, 0, 67], 1)] : List (List Nat × Nat)).length .ok) 0 =
      ((([([1, 0, 0, 0, 65], 1), ([5, 0, 0, 0, 66], 1),
          ([1, 0, 0, 0, 67], 1)] : List (List Nat × Nat)).map
            fun p => stringSpan p.1 p.2).flatten,
       ([([1, 0, 0, 0, 65], 1), ([5, 0, 0, 0, 66], 1),
         ([1, 0, 0, 0, 67], 1)] : List (List Nat × Nat)).map
           fun p => setStringResultAux p.1 "INPUT0" p.2 0) :=
  ⟨by decide,
   (stringInput_perRequest_isolation "INPUT0"
     [([1, 0, 0, 0, 65], 1), ([5, 0, 0, 0, 66], 1), ([1, 0, 0, 0, 67], 1)]
     [[], [], []] _ (by decide) rfl).1⟩

end TritonTFBackend
